import Mathlib

/-
  Verification of the Cadence interface-conformance and access-control
  checker: a shallow embedding of runtime/ast/access.go and of the
  interface-declaration checker (VisitInterfaceDeclaration,
  declareInterfaceType, declareInterfaceMembers, checkInterfaceConformance,
  checkInterfaceFunctions, checkDuplicateInterfaceMembers), together with
  theorems about it.
-/

namespace Cadence

/-- Identity of a NominalType entitlement reference. The Go code keys its set
by the *NominalType pointer, i.e. by declaration reference identity, modelled
here as a numeric identity. -/
abbrev NominalTypeId := Nat

/-- Embeds ast.Separator (Disjunction | Conjunction). -/
inductive Separator where
  | disjunction
  | conjunction
deriving DecidableEq, Repr

/-- Embeds ast.EntitlementSet: the list of entitlements together with the
combinator (conjunctive or disjunctive) that produced it. -/
structure EntitlementSet where
  entitlements : List NominalTypeId
  separator : Separator
deriving DecidableEq, Repr

/-- Embeds ast.EntitlementAccess. -/
structure EntitlementAccess where
  entitlementSet : EntitlementSet
deriving DecidableEq, Repr

/-- Embeds ast.PrimitiveAccess; the constant order follows the iota order in
runtime/ast/access.go (least to most permissive). -/
inductive PrimitiveAccess where
  | accessNotSpecified
  | accessPrivate
  | accessContract
  | accessAccount
  | accessPublic
  | accessPublicSettable
deriving DecidableEq, Repr

/-- The closed set of ast.Access implementations in runtime/ast/access.go. -/
inductive Access where
  | primitive (p : PrimitiveAccess)
  | entitlement (e : EntitlementAccess)
deriving DecidableEq, Repr

/-- Embeds EntitlementAccess.subset: builds the identity set of the other
side's entitlements and checks every entitlement of the receiver is found. -/
def EntitlementAccess.subset (e other : EntitlementAccess) : Bool :=
  let otherSet := other.entitlementSet.entitlements
  e.entitlementSet.entitlements.all fun entitlement => otherSet.contains entitlement

/-- Embeds EntitlementAccess.IsLessPermissiveThan: a type switch on the other
access. -/
def EntitlementAccess.isLessPermissiveThan (e : EntitlementAccess) (other : Access) : Bool :=
  match other with
  | .primitive p => p == .accessPublic || p == .accessPublicSettable
  | .entitlement o => e.subset o

/-- The ordinal of a PrimitiveAccess constant, following the iota order of the
constant block in runtime/ast/access.go. -/
def PrimitiveAccess.ordinal : PrimitiveAccess → Nat
  | .accessNotSpecified => 0
  | .accessPrivate => 1
  | .accessContract => 2
  | .accessAccount => 3
  | .accessPublic => 4
  | .accessPublicSettable => 5

/-- Modelled from the spec: the primitive-versus-primitive case of the
permissiveness comparison. The method itself is not among the provided source
files (only the constant order is, in runtime/ast/access.go, whose comment
says the order indicates permissiveness from least to most permissive); the
spec states the comparison returns true iff the first ordinal is strictly
less than the second in enumeration order. -/
def PrimitiveAccess.isLessPermissiveThan (a b : PrimitiveAccess) : Bool :=
  a.ordinal < b.ordinal

/-- C1: EntitlementAccess(S1).IsLessPermissiveThan(EntitlementAccess(S2))
returns true iff S1 is a subset of S2 over entitlement identities, regardless
of either side's conjunctive/disjunctive combinator tag (the separators are
arbitrary components of the quantified sets). -/
theorem entitlementAccess_less_permissive_iff_subset (s1 s2 : EntitlementSet) :
    (EntitlementAccess.mk s1).isLessPermissiveThan (Access.entitlement (EntitlementAccess.mk s2)) = true ↔
      ∀ x ∈ s1.entitlements, x ∈ s2.entitlements := by
  simp [EntitlementAccess.isLessPermissiveThan, EntitlementAccess.subset,
    List.all_eq_true, List.contains, List.elem_iff]

/-- C2: an entitlement access is less permissive than a primitive access iff
the primitive is Public or PublicSettable; it is false for every other
primitive level, including NotSpecified, Private, Contract and Account. -/
theorem entitlementAccess_less_permissive_than_primitive_iff_public
    (e : EntitlementAccess) (p : PrimitiveAccess) :
    (e.isLessPermissiveThan (Access.primitive p) = true ↔
      (p = .accessPublic ∨ p = .accessPublicSettable)) ∧
    e.isLessPermissiveThan (Access.primitive .accessNotSpecified) = false ∧
    e.isLessPermissiveThan (Access.primitive .accessPrivate) = false ∧
    e.isLessPermissiveThan (Access.primitive .accessContract) = false ∧
    e.isLessPermissiveThan (Access.primitive .accessAccount) = false := by
  refine ⟨?_, ?_, ?_, ?_, ?_⟩
  · cases p <;> simp [EntitlementAccess.isLessPermissiveThan]
  all_goals simp [EntitlementAccess.isLessPermissiveThan]

/-- C6: on primitive access levels the permissiveness comparison is the
strict order of the enumeration ordinals, and it is trichotomous: for every
pair exactly one of less-than, greater-than, or equality holds. -/
theorem primitiveAccess_strict_total_order (a b : PrimitiveAccess) :
    (a.isLessPermissiveThan b = true ↔ a.ordinal < b.ordinal) ∧
    ((a.isLessPermissiveThan b = true ∧ b.isLessPermissiveThan a = false ∧ a ≠ b) ∨
     (a.isLessPermissiveThan b = false ∧ b.isLessPermissiveThan a = true ∧ a ≠ b) ∨
     (a.isLessPermissiveThan b = false ∧ b.isLessPermissiveThan a = false ∧ a = b)) := by
  cases a <;> cases b <;> decide

/-- C9: IsLessPermissiveThan on entitlement accesses is reflexive (hence not
a strict order); an entitlement access with an empty entitlement set is less
permissive than every entitlement access, yet not less permissive than the
primitives NotSpecified, Private, Contract and Account. -/
theorem entitlementAccess_less_permissive_reflexive_and_empty_least :
    (∀ e : EntitlementAccess, e.isLessPermissiveThan (Access.entitlement e) = true) ∧
    (∀ sep : Separator, ∀ e : EntitlementAccess,
      (EntitlementAccess.mk (EntitlementSet.mk [] sep)).isLessPermissiveThan
        (Access.entitlement e) = true) ∧
    (∀ sep : Separator,
      (EntitlementAccess.mk (EntitlementSet.mk [] sep)).isLessPermissiveThan
        (Access.primitive .accessNotSpecified) = false ∧
      (EntitlementAccess.mk (EntitlementSet.mk [] sep)).isLessPermissiveThan
        (Access.primitive .accessPrivate) = false ∧
      (EntitlementAccess.mk (EntitlementSet.mk [] sep)).isLessPermissiveThan
        (Access.primitive .accessContract) = false ∧
      (EntitlementAccess.mk (EntitlementSet.mk [] sep)).isLessPermissiveThan
        (Access.primitive .accessAccount) = false) := by
  refine ⟨?_, ?_, ?_⟩
  · intro e
    simp [EntitlementAccess.isLessPermissiveThan, EntitlementAccess.subset,
      List.all_eq_true, List.contains, List.elem_iff]
  · intro sep e
    simp [EntitlementAccess.isLessPermissiveThan, EntitlementAccess.subset]
  · intro sep
    refine ⟨?_, ?_, ?_, ?_⟩ <;> simp [EntitlementAccess.isLessPermissiveThan]

/-
  Checker data model (package sema, interface checking file).
-/

/-- Embeds ast.Position. -/
structure Position where
  offset : Nat
  line : Nat
  column : Nat
deriving DecidableEq, Repr

/-- Embeds ast.Range (a start and an end position). -/
structure Range where
  startPos : Position
  endPos : Position
deriving DecidableEq, Repr

/-- Embeds ast.Identifier: a name with its source position. -/
structure Identifier where
  identifier : String
  pos : Position
deriving DecidableEq, Repr

/-- Models ast.NewRangeFromPositioned applied to an identifier. -/
def rangeOfIdentifier (ident : Identifier) : Range :=
  { startPos := ident.pos, endPos := ident.pos }

/-- Embeds common.CompositeKind. -/
inductive CompositeKind where
  | structureKind
  | resourceKind
  | contractKind
  | eventKind
  | enumKind
  | attachmentKind
deriving DecidableEq, Repr

/-- Embeds common.DeclarationKind, restricted to the kinds the checked code
distinguishes: fields, functions, and the composite-kinded declaration kinds
returned by common.CompositeKind.DeclarationKind(isInterface). -/
inductive DeclarationKind where
  | field
  | function
  | compositeKindedDeclaration (kind : CompositeKind) (isInterfaceKind : Bool)
deriving DecidableEq, Repr

/-- Models common.CompositeKind.DeclarationKind(isInterface): the declaration
kind of a composite-kinded type, recording whether it is an interface
(e.g. structure vs. structure interface). -/
def CompositeKind.declarationKind (k : CompositeKind) (isInterfaceKind : Bool) : DeclarationKind :=
  .compositeKindedDeclaration k isInterfaceKind

/-- Whether a declaration kind denotes an interface declaration (reads back
the flag passed to CompositeKind.DeclarationKind). -/
def DeclarationKind.indicatesInterface : DeclarationKind → Bool
  | .compositeKindedDeclaration _ b => b
  | _ => false

/-- Embeds sema.Member, keeping the fields the checked code reads: the owning
container type (by identity), the identifier, the declaration kind, and the
HasImplementation / HasConditions flags. -/
structure Member where
  containerTypeId : Nat
  identifier : Identifier
  declarationKind : DeclarationKind
  hasImplementation : Bool
  hasConditions : Bool
deriving DecidableEq, Repr

/-- Embeds a sema Type as far as the conformance checker inspects it: its
identity, its name, whether the Go value is a *InterfaceType, and whether the
Go value implements CompositeKindedType (in which case it carries a composite
kind), plus the container type set by SetContainerType. -/
structure SemaType where
  id : Nat
  identifier : String
  isInterfaceType : Bool
  compositeKinded : Option CompositeKind
  containerTypeId : Option Nat
deriving DecidableEq, Repr

/-- Embeds sema.InterfaceType with the fields the checked code reads. The
Members and NestedTypes ordered maps are association lists in insertion
order, where an overwriting Set shadows by consing in front. -/
structure InterfaceType where
  id : Nat
  identifier : Identifier
  compositeKind : CompositeKind
  conformanceIds : List Nat
  members : List (String × Member)
  nestedTypes : List (String × SemaType)
deriving DecidableEq, Repr

/-- Models a Set on a Go map or ordered map: the new binding shadows any
earlier binding for the same key under List.lookup. -/
def mapSet {κ α : Type} (m : List (κ × α)) (k : κ) (v : α) : List (κ × α) :=
  (k, v) :: m

/-- Embeds sema.InterfaceMemberConflictError (interface types referenced by
identity). -/
structure InterfaceMemberConflictError where
  interfaceTypeId : Nat
  conflictingInterfaceTypeId : Nat
  memberName : String
  memberKind : DeclarationKind
  conflictingMemberKind : DeclarationKind
  range : Range
deriving DecidableEq, Repr

/-- The errors the checked code reports through checker.report. -/
inductive CheckError where
  | interfaceMemberConflict (e : InterfaceMemberConflictError)
  | invalidImplementation (pos : Position) (containerKind : DeclarationKind)
      (implementedKind : DeclarationKind)
  | invalidInterfaceDeclaration (compositeKind : CompositeKind) (range : Range)
  | scopeError (code : Nat)
deriving DecidableEq, Repr

/-- Embeds Checker.checkDuplicateInterfaceMembers. The collaborator
Checker.memberSatisfied (the structural signature-equality test, defined
outside this file's sources) is a parameter taking the interface type by
identity and the two members. Returns the list of reported errors. -/
def checkDuplicateInterfaceMembers
    (memberSatisfied : Nat → Member → Member → Bool)
    (interfaceTypeId : Nat) (interfaceMember : Member)
    (conflictingInterfaceTypeId : Nat) (conflictingMember : Member)
    (getRange : Range) : List CheckError :=
  let conflictError : CheckError := .interfaceMemberConflict {
    interfaceTypeId := interfaceTypeId
    conflictingInterfaceTypeId := conflictingInterfaceTypeId
    memberName := interfaceMember.identifier.identifier
    memberKind := interfaceMember.declarationKind
    conflictingMemberKind := conflictingMember.declarationKind
    range := getRange }
  if !(memberSatisfied interfaceTypeId interfaceMember conflictingMember) then
    [conflictError]
  else if interfaceMember.hasConditions || interfaceMember.hasImplementation ||
      conflictingMember.hasConditions || conflictingMember.hasImplementation then
    [conflictError]
  else
    []

/-- C3: the duplicate-member rule reports a member-conflict error exactly
when the signatures do not match under the collaborator test, or they match
and at least one side carries a default implementation or conditions; with
matching signatures and no implementation or conditions on either side, no
diagnostic is produced, and a reported conflict is always the single
member-conflict error built from the two members. -/
theorem checkDuplicateInterfaceMembers_reports_iff
    (memberSatisfied : Nat → Member → Member → Bool)
    (itId : Nat) (x : Member) (citId : Nat) (y : Member) (rng : Range) :
    checkDuplicateInterfaceMembers memberSatisfied itId x citId y rng =
      (if memberSatisfied itId x y = false ∨
          (memberSatisfied itId x y = true ∧
            (x.hasImplementation = true ∨ x.hasConditions = true ∨
             y.hasImplementation = true ∨ y.hasConditions = true)) then
        [CheckError.interfaceMemberConflict {
          interfaceTypeId := itId
          conflictingInterfaceTypeId := citId
          memberName := x.identifier.identifier
          memberKind := x.declarationKind
          conflictingMemberKind := y.declarationKind
          range := rng }]
      else
        []) := by
  simp only [checkDuplicateInterfaceMembers]
  cases h : memberSatisfied itId x y <;>
    cases hxi : x.hasImplementation <;>
    cases hxc : x.hasConditions <;>
    cases hyi : y.hasImplementation <;>
    cases hyc : y.hasConditions <;>
    simp [h, hxi, hxc, hyi, hyc]

/-
  Function-signature checking in interfaces (checkInterfaceFunctions).
-/

/-- Embeds ast.FunctionBlock as far as checkInterfaceFunctions inspects it:
the block statements, the pre-conditions, the post-conditions (contents
abstracted; only presence matters) and its start position. -/
structure FunctionBlock where
  statements : List Nat
  preConditions : List Nat
  postConditions : List Nat
  startPos : Position
deriving DecidableEq, Repr

/-- Embeds ast.FunctionBlock.HasStatements. -/
def FunctionBlock.hasStatements (b : FunctionBlock) : Bool :=
  !b.statements.isEmpty

/-- Embeds ast.FunctionDeclaration as far as checkInterfaceFunctions inspects
it: its identifier and the optional function block. -/
structure FunctionDeclaration where
  identifier : Identifier
  functionBlock : Option FunctionBlock
deriving DecidableEq, Repr

/-- Embeds sema.functionDeclarationOptions. -/
structure FunctionDeclarationOptions where
  mustExit : Bool
  declareFunction : Bool
  checkResourceLoss : Bool
deriving DecidableEq, Repr

/-- The observable outcome of checking one interface function: the options
passed on to the collaborator visitFunctionDeclaration, and the errors
reported beforehand. -/
structure InterfaceFunctionCheckResult where
  options : FunctionDeclarationOptions
  errors : List CheckError
deriving DecidableEq, Repr

/-- Embeds the per-function body of Checker.checkInterfaceFunctions:
mustExit and checkResourceLoss start false; a block with statements sets
both; an empty block with no pre/post-conditions reports an
InvalidImplementationError; visitFunctionDeclaration is then invoked with
declareFunction false. -/
def checkInterfaceFunction (declarationKind : DeclarationKind)
    (function : FunctionDeclaration) : InterfaceFunctionCheckResult :=
  match function.functionBlock with
  | some functionBlock =>
    if functionBlock.hasStatements then
      { options := { mustExit := true, declareFunction := false, checkResourceLoss := true }
        errors := [] }
    else if functionBlock.preConditions.isEmpty && functionBlock.postConditions.isEmpty then
      { options := { mustExit := false, declareFunction := false, checkResourceLoss := false }
        errors := [.invalidImplementation functionBlock.startPos declarationKind .function] }
    else
      { options := { mustExit := false, declareFunction := false, checkResourceLoss := false }
        errors := [] }
  | none =>
    { options := { mustExit := false, declareFunction := false, checkResourceLoss := false }
      errors := [] }

/-- Embeds Checker.checkInterfaceFunctions: each function is checked in its
own fresh value scope. -/
def checkInterfaceFunctions (declarationKind : DeclarationKind)
    (functions : List FunctionDeclaration) : List InterfaceFunctionCheckResult :=
  functions.map (checkInterfaceFunction declarationKind)

/-- C5: a function block with statements is checked with mustExit and
checkResourceLoss true and no error; a present but empty block without
conditions yields exactly one InvalidImplementation error naming the
container kind and the function declaration kind (flags stay false); no
block, or a block with only pre/post-conditions, yields no error and both
flags stay false. -/
theorem checkInterfaceFunction_cases (declarationKind : DeclarationKind)
    (function : FunctionDeclaration) :
    (∀ fb, function.functionBlock = some fb → fb.hasStatements = true →
      checkInterfaceFunction declarationKind function =
        { options := { mustExit := true, declareFunction := false, checkResourceLoss := true }
          errors := [] }) ∧
    (∀ fb, function.functionBlock = some fb → fb.hasStatements = false →
      fb.preConditions = [] → fb.postConditions = [] →
      checkInterfaceFunction declarationKind function =
        { options := { mustExit := false, declareFunction := false, checkResourceLoss := false }
          errors := [.invalidImplementation fb.startPos declarationKind .function] }) ∧
    (function.functionBlock = none →
      checkInterfaceFunction declarationKind function =
        { options := { mustExit := false, declareFunction := false, checkResourceLoss := false }
          errors := [] }) ∧
    (∀ fb, function.functionBlock = some fb → fb.hasStatements = false →
      (fb.preConditions ≠ [] ∨ fb.postConditions ≠ []) →
      checkInterfaceFunction declarationKind function =
        { options := { mustExit := false, declareFunction := false, checkResourceLoss := false }
          errors := [] }) := by
  refine ⟨?_, ?_, ?_, ?_⟩
  · intro fb hfb hst
    simp [checkInterfaceFunction, hfb, hst]
  · intro fb hfb hst hpre hpost
    simp [checkInterfaceFunction, hfb, hst, hpre, hpost]
  · intro hfb
    simp [checkInterfaceFunction, hfb]
  · intro fb hfb hst hconds
    rcases hconds with h | h <;>
      simp [checkInterfaceFunction, hfb, hst, List.isEmpty_iff, h]

/-- Witness for C5: evaluates the four cases of checkInterfaceFunction_cases
on concrete function declarations. -/
theorem checkInterfaceFunction_cases_witness :
    (checkInterfaceFunction .function
        (FunctionDeclaration.mk (Identifier.mk "f" (Position.mk 0 1 0))
          (some (FunctionBlock.mk [1] [] [] (Position.mk 2 1 2)))) =
      { options := { mustExit := true, declareFunction := false, checkResourceLoss := true }
        errors := [] }) ∧
    (checkInterfaceFunction .function
        (FunctionDeclaration.mk (Identifier.mk "g" (Position.mk 0 1 0))
          (some (FunctionBlock.mk [] [] [] (Position.mk 3 1 3)))) =
      { options := { mustExit := false, declareFunction := false, checkResourceLoss := false }
        errors := [.invalidImplementation (Position.mk 3 1 3) .function .function] }) ∧
    (checkInterfaceFunction .function
        (FunctionDeclaration.mk (Identifier.mk "h" (Position.mk 0 1 0)) none) =
      { options := { mustExit := false, declareFunction := false, checkResourceLoss := false }
        errors := [] }) ∧
    (checkInterfaceFunction .function
        (FunctionDeclaration.mk (Identifier.mk "k" (Position.mk 0 1 0))
          (some (FunctionBlock.mk [] [4] [] (Position.mk 5 1 5)))) =
      { options := { mustExit := false, declareFunction := false, checkResourceLoss := false }
        errors := [] }) := by
  refine ⟨?_, ?_, ?_, ?_⟩
  · exact (checkInterfaceFunction_cases .function
      (FunctionDeclaration.mk (Identifier.mk "f" (Position.mk 0 1 0))
        (some (FunctionBlock.mk [1] [] [] (Position.mk 2 1 2))))).1
      (FunctionBlock.mk [1] [] [] (Position.mk 2 1 2)) rfl (by decide)
  · exact (checkInterfaceFunction_cases .function
      (FunctionDeclaration.mk (Identifier.mk "g" (Position.mk 0 1 0))
        (some (FunctionBlock.mk [] [] [] (Position.mk 3 1 3))))).2.1
      (FunctionBlock.mk [] [] [] (Position.mk 3 1 3)) rfl (by decide) rfl rfl
  · exact (checkInterfaceFunction_cases .function
      (FunctionDeclaration.mk (Identifier.mk "h" (Position.mk 0 1 0)) none)).2.2.1 rfl
  · exact (checkInterfaceFunction_cases .function
      (FunctionDeclaration.mk (Identifier.mk "k" (Position.mk 0 1 0))
        (some (FunctionBlock.mk [] [4] [] (Position.mk 5 1 5))))).2.2.2
      (FunctionBlock.mk [] [4] [] (Position.mk 5 1 5)) rfl (by decide)
      (Or.inl (by decide))

/-
  Conformance checking (checkInterfaceConformance): member merge.
-/

/-- The transient state threaded through the member-conflict part of
Checker.checkInterfaceConformance: the inheritedMembers map and the errors
reported so far. -/
structure ConformanceMemberState where
  inheritedMembers : List (String × Member)
  errors : List CheckError
deriving DecidableEq, Repr

/-- Embeds the body of the Members.Foreach closure in
Checker.checkInterfaceConformance, for one member name of the conformance:
first the check against inheritedMembers (attributing the diagnostic to the
declared interface via interfaceDeclarationRange, the range of
interfaceDeclaration.Identifier), then the overwrite of
inheritedMembers[name], then the check against the interface's own declared
members. -/
def checkConformanceMember
    (memberSatisfied : Nat → Member → Member → Bool)
    (interfaceDeclarationRange : Range)
    (interfaceType : InterfaceType)
    (conformanceId : Nat)
    (st : ConformanceMemberState)
    (name : String) (conformanceMember : Member) : ConformanceMemberState :=
  let st1 : ConformanceMemberState :=
    match st.inheritedMembers.lookup name with
    | some conflictingMember =>
      let conflictingInterfaceId := conflictingMember.containerTypeId
      let reported :=
        checkDuplicateInterfaceMembers memberSatisfied conformanceId conformanceMember
          conflictingInterfaceId conflictingMember interfaceDeclarationRange
      { st with errors := st.errors ++ reported }
    | none => st
  let st2 : ConformanceMemberState :=
    { st1 with inheritedMembers := mapSet st1.inheritedMembers name conformanceMember }
  match interfaceType.members.lookup name with
  | some declarationMember =>
    let reported :=
      checkDuplicateInterfaceMembers memberSatisfied interfaceType.id declarationMember
        conformanceId conformanceMember (rangeOfIdentifier declarationMember.identifier)
    { st2 with errors := st2.errors ++ reported }
  | none => st2

/-- Embeds the Members.Foreach loop of Checker.checkInterfaceConformance over
all members of the conformance, in map iteration order. -/
def checkConformanceMembers
    (memberSatisfied : Nat → Member → Member → Bool)
    (interfaceDeclarationRange : Range)
    (interfaceType : InterfaceType)
    (conformance : InterfaceType)
    (st : ConformanceMemberState) : ConformanceMemberState :=
  conformance.members.foldl
    (fun st p => checkConformanceMember memberSatisfied interfaceDeclarationRange
      interfaceType conformance.id st p.1 p.2)
    st

/-- C4: processing one conformance member name performs the duplicate-member
check against the earlier conformance's member read from the pre-overwrite
inheritedMembers map, then overwrites inheritedMembers[name] with the current
conformance's member (last-writer-wins), and afterwards performs a second
duplicate-member check against the interface's own declared member when one
exists; the emitted errors are appended in that order. -/
theorem checkConformanceMember_merge_order
    (memberSatisfied : Nat → Member → Member → Bool)
    (interfaceDeclarationRange : Range)
    (interfaceType : InterfaceType)
    (conformanceId : Nat)
    (st : ConformanceMemberState)
    (name : String) (conformanceMember : Member) :
    (checkConformanceMember memberSatisfied interfaceDeclarationRange interfaceType
        conformanceId st name conformanceMember).inheritedMembers =
      mapSet st.inheritedMembers name conformanceMember ∧
    (checkConformanceMember memberSatisfied interfaceDeclarationRange interfaceType
        conformanceId st name conformanceMember).errors =
      st.errors
        ++ (match st.inheritedMembers.lookup name with
            | some conflictingMember =>
              checkDuplicateInterfaceMembers memberSatisfied conformanceId conformanceMember
                conflictingMember.containerTypeId conflictingMember interfaceDeclarationRange
            | none => [])
        ++ (match interfaceType.members.lookup name with
            | some declarationMember =>
              checkDuplicateInterfaceMembers memberSatisfied interfaceType.id declarationMember
                conformanceId conformanceMember (rangeOfIdentifier declarationMember.identifier)
            | none => []) := by
  unfold checkConformanceMember
  cases hinh : st.inheritedMembers.lookup name <;>
    cases hdecl : interfaceType.members.lookup name <;>
    simp [hinh, hdecl, mapSet]

/-
  Conformance checking (checkInterfaceConformance): nested-type merge.
-/

/-- Embeds the reportTypeConflictError closure inside
Checker.checkInterfaceConformance: given the name, an already
composite-kinded type (with the kind obtained from its successful cast to
CompositeKindedType), and some other nested type, reports an
InterfaceMemberConflictError on the declared interface when the other type
is composite-kinded as well, stating for each side whether it is an
interface or a concrete type; reports nothing otherwise. -/
def reportTypeConflictError
    (interfaceTypeId conformanceId : Nat) (declarationRange : Range)
    (typeName : String) (typ : SemaType) (typKind : CompositeKind)
    (otherType : SemaType) : List CheckError :=
  match otherType.compositeKinded with
  | none => []
  | some otherKind =>
    [.interfaceMemberConflict {
      interfaceTypeId := interfaceTypeId
      conflictingInterfaceTypeId := conformanceId
      memberName := typeName
      memberKind := typKind.declarationKind typ.isInterfaceType
      conflictingMemberKind := otherKind.declarationKind otherType.isInterfaceType
      range := declarationRange }]

/-- The transient state threaded through the nested-type part of
Checker.checkInterfaceConformance. -/
structure ConformanceNestedState where
  inheritedNestedTypes : List (String × SemaType)
  errors : List CheckError
deriving DecidableEq, Repr

/-- Embeds the body of the NestedTypes.Foreach closure in
Checker.checkInterfaceConformance, for one nested type name of the
conformance: skip unless the type requirement is composite-kinded; check
against inheritedNestedTypes (aborting the whole step when the inherited
entry is not composite-kinded, mirroring the early return); record the
entry; then check against the interface's own nested types. -/
def checkConformanceNestedType
    (interfaceType : InterfaceType) (conformanceId : Nat)
    (declarationRange : Range)
    (st : ConformanceNestedState)
    (name : String) (typeRequirement : SemaType) : ConformanceNestedState :=
  match typeRequirement.compositeKinded with
  | none => st
  | some compositeKind =>
    let inheritedStep : Option (List CheckError) :=
      match st.inheritedNestedTypes.lookup name with
      | some inheritedType =>
        match inheritedType.compositeKinded with
        | none => none
        | some _ =>
          some (reportTypeConflictError interfaceType.id conformanceId declarationRange
            name typeRequirement compositeKind inheritedType)
      | none => some []
    match inheritedStep with
    | none => st
    | some inheritedErrors =>
      let st2 : ConformanceNestedState := {
        inheritedNestedTypes := mapSet st.inheritedNestedTypes name typeRequirement
        errors := st.errors ++ inheritedErrors }
      match interfaceType.nestedTypes.lookup name with
      | some nestedType =>
        let reported :=
          reportTypeConflictError interfaceType.id conformanceId declarationRange
            name typeRequirement compositeKind nestedType
        { st2 with errors := st2.errors ++ reported }
      | none => st2

/-- Embeds the NestedTypes.Foreach loop of Checker.checkInterfaceConformance
over all nested types of the conformance, in map iteration order. -/
def checkConformanceNestedTypes
    (interfaceType : InterfaceType) (conformance : InterfaceType)
    (declarationRange : Range)
    (st : ConformanceNestedState) : ConformanceNestedState :=
  conformance.nestedTypes.foldl
    (fun st p => checkConformanceNestedType interfaceType conformance.id
      declarationRange st p.1 p.2)
    st

/-- Modelled from the spec: a nested interface used as a pure marker. The Go
CompositeKindedType interface and the list of its implementors are not among
the provided source files; the spec states that interfaces nested as pure
markers are exempt from the nested-type collision check, i.e. they do not
satisfy the composite-kinded cast. -/
def pureMarkerInterfaceType (id : Nat) (name : String) : SemaType :=
  { id := id
    identifier := name
    isInterfaceType := true
    compositeKinded := none
    containerTypeId := none }

/-- Checks that every error in the list is a member-conflict report whose two
declaration kinds state, for each of the two conflicting declarations,
whether that side is an interface. -/
def reportStatesInterfaceness (typIsInterface otherIsInterface : Bool)
    (errs : List CheckError) : Bool :=
  errs.all fun e =>
    match e with
    | .interfaceMemberConflict c =>
      c.memberKind.indicatesInterface == typIsInterface &&
        c.conflictingMemberKind.indicatesInterface == otherIsInterface
    | _ => false

/-- C8: per nested type name of the conformance, the two-way collision check
runs against inheritedNestedTypes and against the interface's own nested
types, but only when the type requirement is composite-kinded — a nested
interface that is a pure marker leaves the state unchanged — and every
reported collision states, for each of the two conflicting declarations,
whether it is an interface or a concrete type. -/
theorem checkConformanceNestedType_spec
    (interfaceType : InterfaceType) (conformanceId : Nat)
    (declarationRange : Range) (st : ConformanceNestedState)
    (name : String) (typeRequirement : SemaType)
    (markerId : Nat) (markerName : String)
    (typ otherType : SemaType) (typKind : CompositeKind) :
    (checkConformanceNestedType interfaceType conformanceId declarationRange st
        name typeRequirement =
      match typeRequirement.compositeKinded with
      | none => st
      | some compositeKind =>
        match st.inheritedNestedTypes.lookup name with
        | some inheritedType =>
          match inheritedType.compositeKinded with
          | none => st
          | some _ =>
            let selfErrors :=
              match interfaceType.nestedTypes.lookup name with
              | some nestedType =>
                reportTypeConflictError interfaceType.id conformanceId declarationRange
                  name typeRequirement compositeKind nestedType
              | none => []
            { inheritedNestedTypes := mapSet st.inheritedNestedTypes name typeRequirement
              errors := st.errors
                ++ reportTypeConflictError interfaceType.id conformanceId declarationRange
                    name typeRequirement compositeKind inheritedType
                ++ selfErrors }
        | none =>
          let selfErrors :=
            match interfaceType.nestedTypes.lookup name with
            | some nestedType =>
              reportTypeConflictError interfaceType.id conformanceId declarationRange
                name typeRequirement compositeKind nestedType
            | none => []
          { inheritedNestedTypes := mapSet st.inheritedNestedTypes name typeRequirement
            errors := st.errors ++ selfErrors }) ∧
    checkConformanceNestedType interfaceType conformanceId declarationRange st
        name (pureMarkerInterfaceType markerId markerName) = st ∧
    reportStatesInterfaceness typ.isInterfaceType otherType.isInterfaceType
      (reportTypeConflictError interfaceType.id conformanceId declarationRange
        name typ typKind otherType) = true := by
  refine ⟨?_, ?_, ?_⟩
  · unfold checkConformanceNestedType
    cases hreq : typeRequirement.compositeKinded <;>
      [skip;
       cases hinh : st.inheritedNestedTypes.lookup name] <;>
      simp [hreq]
    · cases hself : interfaceType.nestedTypes.lookup name <;> simp [hself]
    · rename_i inheritedType
      cases hik : inheritedType.compositeKinded <;>
        cases hself : interfaceType.nestedTypes.lookup name <;>
        simp [hik, hself]
  · simp [checkConformanceNestedType, pureMarkerInterfaceType]
  · cases hok : otherType.compositeKinded <;>
      simp [reportTypeConflictError, reportStatesInterfaceness, hok,
        CompositeKind.declarationKind, DeclarationKind.indicatesInterface]

/-
  Elaboration, declareInterfaceType and the unreachable-state fault.
-/

/-- Embeds ast.InterfaceDeclaration as far as the modelled passes read it
directly: the declaration identity, its identifier and its composite kind. -/
structure InterfaceDeclaration where
  id : Nat
  identifier : Identifier
  compositeKind : CompositeKind
deriving DecidableEq, Repr

/-- Embeds the elaboration maps the checked code reads and writes:
InterfaceDeclarationTypes (declaration identity to interface type),
InterfaceTypeDeclarations (interface type identity to declaration identity)
and InterfaceNestedDeclarations (declaration identity to the map from nested
names to nested declaration identities). -/
structure Elaboration where
  interfaceDeclarationTypes : List (Nat × InterfaceType)
  interfaceTypeDeclarations : List (Nat × Nat)
  interfaceNestedDeclarations : List (Nat × List (String × Nat))
deriving DecidableEq, Repr

/-- Embeds errors.NewUnreachableError raised through a Go panic: the fatal,
internal invariant-violation fault, distinct from reported diagnostics. -/
inductive FatalFault where
  | unreachableFault
deriving DecidableEq, Repr

/-- Embeds the elaboration lookup at the top of
Checker.VisitInterfaceDeclaration: the pass panics with an unreachable error
when the interface type is missing from InterfaceDeclarationTypes, and
otherwise proceeds with the found type. -/
def visitInterfaceDeclarationLookup (elaboration : Elaboration)
    (declaration : InterfaceDeclaration) : Except FatalFault InterfaceType :=
  match elaboration.interfaceDeclarationTypes.lookup declaration.id with
  | none => .error .unreachableFault
  | some interfaceType => .ok interfaceType

/-- Embeds the identical elaboration lookup at the top of
Checker.declareInterfaceMembers. -/
def declareInterfaceMembersLookup (elaboration : Elaboration)
    (declaration : InterfaceDeclaration) : Except FatalFault InterfaceType :=
  match elaboration.interfaceDeclarationTypes.lookup declaration.id with
  | none => .error .unreachableFault
  | some interfaceType => .ok interfaceType

/-- The ordered side effects of Checker.declareInterfaceType, used to state
in which order the pass performs its steps. -/
inductive DeclareEvent where
  | declaredTypeBinding
  | reported (e : CheckError)
  | registeredDeclarationType (declarationId typeId : Nat)
  | registeredTypeDeclaration (typeId declarationId : Nat)
  | registeredNestedDeclarations (declarationId : Nat)
  | linkedNestedType (name : String)
deriving DecidableEq, Repr

/-- The outcome of Checker.declareInterfaceType: the updated elaboration, the
reported (non-fatal) errors, the ordered side effects, and the returned
interface type. -/
structure DeclareInterfaceTypeResult where
  elaboration : Elaboration
  errors : List CheckError
  events : List DeclareEvent
  interfaceType : InterfaceType
deriving DecidableEq, Repr

/-- Embeds Checker.declareInterfaceType. Collaborator results are passed as
parameters: supportsInterfaces stands for
common.CompositeKind.SupportsInterfaces, scopeDeclarationError for the error
returned by typeActivations.declareType, freshTypeId for the identity of the
freshly allocated interface type, conformanceIds for
checker.explicitInterfaceConformances, and nestedDeclarationIds together with
nestedInterfaceTypes and nestedCompositeTypes for the results of
checker.declareNestedDeclarations. The Go code registers a pointer to the
interface type and mutates it afterwards (linking nested types), so the
elaboration holds the final value of the type; the events list records the
order in which the side effects happen in the source. -/
def declareInterfaceType
    (supportsInterfaces : CompositeKind → Bool)
    (scopeDeclarationError : Option CheckError)
    (freshTypeId : Nat)
    (conformanceIds : List Nat)
    (nestedDeclarationIds : List (String × Nat))
    (nestedInterfaceTypes nestedCompositeTypes : List SemaType)
    (elaboration : Elaboration)
    (declaration : InterfaceDeclaration) : DeclareInterfaceTypeResult :=
  let linkedNested : List SemaType :=
    (nestedInterfaceTypes ++ nestedCompositeTypes).map
      fun t => { t with containerTypeId := some freshTypeId }
  let nestedTypesMap : List (String × SemaType) :=
    linkedNested.foldl (fun m t => mapSet m t.identifier t) []
  let interfaceType : InterfaceType := {
    id := freshTypeId
    identifier := declaration.identifier
    compositeKind := declaration.compositeKind
    conformanceIds := conformanceIds
    members := []
    nestedTypes := nestedTypesMap }
  let kindErrors : List CheckError :=
    if supportsInterfaces declaration.compositeKind then []
    else [CheckError.invalidInterfaceDeclaration declaration.compositeKind
      (rangeOfIdentifier declaration.identifier)]
  { elaboration := {
      interfaceDeclarationTypes :=
        mapSet elaboration.interfaceDeclarationTypes declaration.id interfaceType
      interfaceTypeDeclarations :=
        mapSet elaboration.interfaceTypeDeclarations freshTypeId declaration.id
      interfaceNestedDeclarations :=
        mapSet elaboration.interfaceNestedDeclarations declaration.id nestedDeclarationIds }
    errors := scopeDeclarationError.toList ++ kindErrors
    events :=
      [DeclareEvent.declaredTypeBinding]
        ++ scopeDeclarationError.toList.map DeclareEvent.reported
        ++ [DeclareEvent.registeredDeclarationType declaration.id freshTypeId,
            DeclareEvent.registeredTypeDeclaration freshTypeId declaration.id]
        ++ kindErrors.map DeclareEvent.reported
        ++ [DeclareEvent.registeredNestedDeclarations declaration.id]
        ++ linkedNested.map fun t => DeclareEvent.linkedNestedType t.identifier
    interfaceType := interfaceType }

/-- C7: VisitInterfaceDeclaration and declareInterfaceMembers raise the
fatal unreachable-state fault exactly when the elaboration has no interface
type for the declaration, and after declareInterfaceType has run for the
declaration neither raises it: both lookups succeed with the declared
type. -/
theorem interfaceChecker_unreachable_iff_declare_not_run
    (elaboration : Elaboration) (declaration : InterfaceDeclaration) :
    (visitInterfaceDeclarationLookup elaboration declaration = .error .unreachableFault ↔
      elaboration.interfaceDeclarationTypes.lookup declaration.id = none) ∧
    (declareInterfaceMembersLookup elaboration declaration = .error .unreachableFault ↔
      elaboration.interfaceDeclarationTypes.lookup declaration.id = none) ∧
    (∀ (supportsInterfaces : CompositeKind → Bool)
        (scopeDeclarationError : Option CheckError)
        (freshTypeId : Nat) (conformanceIds : List Nat)
        (nestedDeclarationIds : List (String × Nat))
        (nestedInterfaceTypes nestedCompositeTypes : List SemaType),
      visitInterfaceDeclarationLookup
          (declareInterfaceType supportsInterfaces scopeDeclarationError freshTypeId
            conformanceIds nestedDeclarationIds nestedInterfaceTypes nestedCompositeTypes
            elaboration declaration).elaboration declaration =
        .ok (declareInterfaceType supportsInterfaces scopeDeclarationError freshTypeId
            conformanceIds nestedDeclarationIds nestedInterfaceTypes nestedCompositeTypes
            elaboration declaration).interfaceType ∧
      declareInterfaceMembersLookup
          (declareInterfaceType supportsInterfaces scopeDeclarationError freshTypeId
            conformanceIds nestedDeclarationIds nestedInterfaceTypes nestedCompositeTypes
            elaboration declaration).elaboration declaration =
        .ok (declareInterfaceType supportsInterfaces scopeDeclarationError freshTypeId
            conformanceIds nestedDeclarationIds nestedInterfaceTypes nestedCompositeTypes
            elaboration declaration).interfaceType) := by
  refine ⟨?_, ?_, ?_⟩
  · unfold visitInterfaceDeclarationLookup
    cases h : elaboration.interfaceDeclarationTypes.lookup declaration.id <;> simp [h]
  · unfold declareInterfaceMembersLookup
    cases h : elaboration.interfaceDeclarationTypes.lookup declaration.id <;> simp [h]
  · intro supportsInterfaces scopeDeclarationError freshTypeId conformanceIds
      nestedDeclarationIds nestedInterfaceTypes nestedCompositeTypes
    constructor <;>
      simp [visitInterfaceDeclarationLookup, declareInterfaceMembersLookup,
        declareInterfaceType, mapSet, List.lookup]

/-- Whether every nested type recorded in the map has its container type set
to the given type identity. -/
def allLinkedTo (containerId : Nat) (m : List (String × SemaType)) : Bool :=
  m.all fun p => p.2.containerTypeId == some containerId

/-- Whether every listed nested type is resolvable by its identifier in the
map. -/
def allDeclaredIn (m : List (String × SemaType)) (ts : List SemaType) : Bool :=
  ts.all fun t => (m.lookup t.identifier).isSome

/-- The linking events for a list of nested types, in order. -/
def linkedNestedEvents (ts : List SemaType) : List DeclareEvent :=
  ts.map fun t => DeclareEvent.linkedNestedType t.identifier

/-- Folding map insertion over a list produces the reversed association
pairs in front of the initial map. -/
theorem foldl_mapSet_pairs (ts : List SemaType) (m : List (String × SemaType)) :
    ts.foldl (fun m t => mapSet m t.identifier t) m =
      (ts.map fun t => (t.identifier, t)).reverse ++ m := by
  induction ts generalizing m with
  | nil => simp
  | cons t rest ih =>
    rw [List.foldl_cons, ih]
    simp [mapSet]

/-- A lookup for a key that appears in an association list succeeds. -/
theorem lookup_isSome_of_mem {α β : Type} [BEq α] [LawfulBEq α]
    (l : List (α × β)) (k : α) (v : β) (h : (k, v) ∈ l) :
    (l.lookup k).isSome = true := by
  induction l with
  | nil => cases h
  | cons p rest ih =>
    rcases List.mem_cons.mp h with heq | hmem
    · subst heq
      simp [List.lookup]
    · cases hk : k == p.1 <;> simp [List.lookup, hk, ih hmem]

/-- C10: when the declared composite kind does not support interfaces,
declareInterfaceType reports the InvalidInterfaceDeclaration error
non-fatally and still completes: the interface type is registered in both
elaboration mappings, and in the ordered side effects both registrations
happen before the kind check reports; the nested types are all declared in
the returned type's nested-type map with their container type set, and the
constructed interface type (with the declaration's identifier and kind, the
resolved conformances and empty members) is returned. -/
theorem declareInterfaceType_invalid_kind_still_completes
    (supportsInterfaces : CompositeKind → Bool)
    (scopeDeclarationError : Option CheckError)
    (freshTypeId : Nat)
    (conformanceIds : List Nat)
    (nestedDeclarationIds : List (String × Nat))
    (nestedInterfaceTypes nestedCompositeTypes : List SemaType)
    (elaboration : Elaboration)
    (declaration : InterfaceDeclaration)
    (h : supportsInterfaces declaration.compositeKind = false) :
    (declareInterfaceType supportsInterfaces scopeDeclarationError freshTypeId
        conformanceIds nestedDeclarationIds nestedInterfaceTypes nestedCompositeTypes
        elaboration declaration).errors =
      scopeDeclarationError.toList ++
        [CheckError.invalidInterfaceDeclaration declaration.compositeKind
          (rangeOfIdentifier declaration.identifier)] ∧
    (declareInterfaceType supportsInterfaces scopeDeclarationError freshTypeId
        conformanceIds nestedDeclarationIds nestedInterfaceTypes nestedCompositeTypes
        elaboration declaration).elaboration.interfaceDeclarationTypes.lookup declaration.id =
      some (declareInterfaceType supportsInterfaces scopeDeclarationError freshTypeId
        conformanceIds nestedDeclarationIds nestedInterfaceTypes nestedCompositeTypes
        elaboration declaration).interfaceType ∧
    (declareInterfaceType supportsInterfaces scopeDeclarationError freshTypeId
        conformanceIds nestedDeclarationIds nestedInterfaceTypes nestedCompositeTypes
        elaboration declaration).elaboration.interfaceTypeDeclarations.lookup freshTypeId =
      some declaration.id ∧
    (declareInterfaceType supportsInterfaces scopeDeclarationError freshTypeId
        conformanceIds nestedDeclarationIds nestedInterfaceTypes nestedCompositeTypes
        elaboration declaration).events =
      [DeclareEvent.declaredTypeBinding]
        ++ scopeDeclarationError.toList.map DeclareEvent.reported
        ++ [DeclareEvent.registeredDeclarationType declaration.id freshTypeId,
            DeclareEvent.registeredTypeDeclaration freshTypeId declaration.id,
            DeclareEvent.reported (CheckError.invalidInterfaceDeclaration
              declaration.compositeKind (rangeOfIdentifier declaration.identifier)),
            DeclareEvent.registeredNestedDeclarations declaration.id]
        ++ linkedNestedEvents (nestedInterfaceTypes ++ nestedCompositeTypes) ∧
    allLinkedTo freshTypeId
      (declareInterfaceType supportsInterfaces scopeDeclarationError freshTypeId
        conformanceIds nestedDeclarationIds nestedInterfaceTypes nestedCompositeTypes
        elaboration declaration).interfaceType.nestedTypes = true ∧
    allDeclaredIn
      (declareInterfaceType supportsInterfaces scopeDeclarationError freshTypeId
        conformanceIds nestedDeclarationIds nestedInterfaceTypes nestedCompositeTypes
        elaboration declaration).interfaceType.nestedTypes
      (nestedInterfaceTypes ++ nestedCompositeTypes) = true ∧
    (declareInterfaceType supportsInterfaces scopeDeclarationError freshTypeId
        conformanceIds nestedDeclarationIds nestedInterfaceTypes nestedCompositeTypes
        elaboration declaration).interfaceType.id = freshTypeId ∧
    (declareInterfaceType supportsInterfaces scopeDeclarationError freshTypeId
        conformanceIds nestedDeclarationIds nestedInterfaceTypes nestedCompositeTypes
        elaboration declaration).interfaceType.identifier = declaration.identifier ∧
    (declareInterfaceType supportsInterfaces scopeDeclarationError freshTypeId
        conformanceIds nestedDeclarationIds nestedInterfaceTypes nestedCompositeTypes
        elaboration declaration).interfaceType.compositeKind = declaration.compositeKind ∧
    (declareInterfaceType supportsInterfaces scopeDeclarationError freshTypeId
        conformanceIds nestedDeclarationIds nestedInterfaceTypes nestedCompositeTypes
        elaboration declaration).interfaceType.conformanceIds = conformanceIds ∧
    (declareInterfaceType supportsInterfaces scopeDeclarationError freshTypeId
        conformanceIds nestedDeclarationIds nestedInterfaceTypes nestedCompositeTypes
        elaboration declaration).interfaceType.members = [] := by
  refine ⟨?_, ?_, ?_, ?_, ?_, ?_, ?_, ?_, ?_, ?_, ?_⟩
  · simp [declareInterfaceType, h]
  · simp [declareInterfaceType, mapSet, List.lookup]
  · simp [declareInterfaceType, mapSet, List.lookup]
  · simp only [declareInterfaceType, linkedNestedEvents, h, Bool.false_eq_true,
      if_false, List.map_map, List.map_append, List.map_cons, List.map_nil,
      Option.toList_none, List.nil_append, List.append_assoc, List.cons_append]
    rfl
  · simp only [declareInterfaceType, allLinkedTo, foldl_mapSet_pairs, List.append_nil]
    rw [List.all_eq_true]
    intro p hp
    rw [List.mem_reverse] at hp
    obtain ⟨t, ht, rfl⟩ := List.mem_map.mp hp
    obtain ⟨u, hu, rfl⟩ := List.mem_map.mp ht
    simp
  · simp only [declareInterfaceType, allDeclaredIn, foldl_mapSet_pairs, List.append_nil]
    rw [List.all_eq_true]
    intro t ht
    apply lookup_isSome_of_mem _ _ ({ t with containerTypeId := some freshTypeId })
    rw [List.mem_reverse]
    exact List.mem_map.mpr ⟨{ t with containerTypeId := some freshTypeId },
      List.mem_map.mpr ⟨t, ht, rfl⟩, rfl⟩
  · simp [declareInterfaceType]
  · simp [declareInterfaceType]
  · simp [declareInterfaceType]
  · simp [declareInterfaceType]
  · simp [declareInterfaceType]

/-- Witness for C10: evaluates declareInterfaceType on a concrete enum-kind
declaration (enums do not support interfaces) with one nested interface and
one nested composite. -/
theorem declareInterfaceType_invalid_kind_still_completes_witness :
    (declareInterfaceType (fun _ => false) none 7 [3] [("N1", 11)]
        [SemaType.mk 21 "N1" true (some .structureKind) none]
        [SemaType.mk 22 "N2" false (some .resourceKind) none]
        (Elaboration.mk [] [] [])
        (InterfaceDeclaration.mk 1 (Identifier.mk "I" (Position.mk 0 1 0))
          CompositeKind.enumKind)).errors =
      [CheckError.invalidInterfaceDeclaration CompositeKind.enumKind
        (rangeOfIdentifier (Identifier.mk "I" (Position.mk 0 1 0)))] ∧
    (declareInterfaceType (fun _ => false) none 7 [3] [("N1", 11)]
        [SemaType.mk 21 "N1" true (some .structureKind) none]
        [SemaType.mk 22 "N2" false (some .resourceKind) none]
        (Elaboration.mk [] [] [])
        (InterfaceDeclaration.mk 1 (Identifier.mk "I" (Position.mk 0 1 0))
          CompositeKind.enumKind)).elaboration.interfaceDeclarationTypes.lookup 1 =
      some (declareInterfaceType (fun _ => false) none 7 [3] [("N1", 11)]
        [SemaType.mk 21 "N1" true (some .structureKind) none]
        [SemaType.mk 22 "N2" false (some .resourceKind) none]
        (Elaboration.mk [] [] [])
        (InterfaceDeclaration.mk 1 (Identifier.mk "I" (Position.mk 0 1 0))
          CompositeKind.enumKind)).interfaceType := by
  have h := declareInterfaceType_invalid_kind_still_completes
    (fun _ => false) none 7 [3] [("N1", 11)]
    [SemaType.mk 21 "N1" true (some .structureKind) none]
    [SemaType.mk 22 "N2" false (some .resourceKind) none]
    (Elaboration.mk [] [] [])
    (InterfaceDeclaration.mk 1 (Identifier.mk "I" (Position.mk 0 1 0))
      CompositeKind.enumKind)
    rfl
  exact ⟨h.1, h.2.1⟩

end Cadence
